import Mathlib

/-!
Shallow embedding of the OAuth 2.0 authorization-code proxy and the
session/transport registry of the mcp-gdrive server
(src/src/oauth.ts, src/src/http-server.ts and the Streamable-HTTP
server variant).

Timestamps are modelled as `Int` milliseconds (JS `Date.now()`), the
in-memory JS `Map`s as association lists with unique keys, and the
awaited Google calls (token exchange, refresh, token-info lookup) as
`Except`-valued parameters supplied by the environment.  JavaScript
truthiness of optional strings / numbers is modelled explicitly.
-/

/-- Truthiness of a JS `string | undefined` value: `undefined` and `""` are falsy. -/
def strTruthy : Option String → Bool
  | none => false
  | some s => s != ""

/-- Truthiness of a JS `number | undefined` value: `undefined` and `0` are falsy. -/
def intTruthy : Option Int → Bool
  | none => false
  | some v => v != 0

/-- `Map.get`: value at the first (unique) occurrence of the key. -/
def mapGet {α : Type} (m : List (String × α)) (k : String) : Option α :=
  match m with
  | [] => none
  | kv :: rest => if kv.1 = k then some kv.2 else mapGet rest k

/-- `Map.delete`: remove the entry with the given key. -/
def mapDelete {α : Type} (m : List (String × α)) (k : String) : List (String × α) :=
  match m with
  | [] => []
  | kv :: rest => if kv.1 = k then mapDelete rest k else kv :: mapDelete rest k

/-- `Map.has`: key membership. -/
def mapHas {α : Type} (m : List (String × α)) (k : String) : Bool :=
  (mapGet m k).isSome

/-- `Map.set`: bind the key to the value (keys stay unique). -/
def mapSet {α : Type} (m : List (String × α)) (k : String) (v : α) : List (String × α) :=
  mapDelete m k ++ [(k, v)]

/-- The fixed Drive scope list (`SCOPES` in src/src/oauth.ts). -/
def SCOPES : List String :=
  ["https://www.googleapis.com/auth/drive.readonly",
   "https://www.googleapis.com/auth/drive.metadata.readonly"]

/-- `SCOPES.join(" ")`, the `scope` field of token responses. -/
def scopeString : String := String.intercalate " " SCOPES

/-- Tokens obtained from Google (`access_token`, optional `refresh_token`,
optional `expiry_date` in ms). -/
structure GoogleTokens where
  access_token : String
  refresh_token : Option String := none
  expiry_date : Option Int := none
deriving DecidableEq, Repr

/-- Entry of the `oauthStates` map: pending authorization keyed by CSRF state. -/
structure StateRec where
  timestamp : Int
  clientId : Option String := none
  clientRedirectUri : Option String := none
  clientState : Option String := none
deriving DecidableEq, Repr

/-- Entry of the `authorizationCodes` map: proxy-minted code with the real tokens. -/
structure CodeRec where
  timestamp : Int
  tokens : GoogleTokens
deriving DecidableEq, Repr

abbrev StateStore := List (String × StateRec)
abbrev CodeStore := List (String × CodeRec)

/-- Ten minutes in milliseconds, the TTL used by both lazy sweeps. -/
def tenMinutesMs : Int := 10 * 60 * 1000

/-- The sweep loop of `/oauth/authorize`: drop states with `timestamp < now - 10min`. -/
def sweepStates (now : Int) (m : StateStore) : StateStore :=
  m.filter (fun kv => decide (¬ kv.2.timestamp < now - tenMinutesMs))

/-- The sweep loop of `/oauth/callback`: drop codes with `timestamp < now - 10min`. -/
def sweepCodes (now : Int) (m : CodeStore) : CodeStore :=
  m.filter (fun kv => decide (¬ kv.2.timestamp < now - tenMinutesMs))

/-- Query parameters of `GET /oauth/authorize`. -/
structure AuthorizeQuery where
  redirect_uri : Option String := none
  state : Option String := none
  response_type : Option String := none
  client_id : Option String := none
deriving DecidableEq, Repr

/-- Outcome of `GET /oauth/authorize`. -/
inductive AuthorizeResult where
  | badRequest (error : String) (error_description : String)
  | redirectToGoogle (state : String)
deriving DecidableEq, Repr

/-- `handleAuthorize` (src/src/oauth.ts lines 139-189): validate
`response_type`, store a fresh CSRF state, sweep stale states, redirect
to Google.  `newState` stands for the fresh `crypto.randomBytes` value. -/
def handleAuthorize (now : Int) (newState : String) (q : AuthorizeQuery)
    (states : StateStore) : AuthorizeResult × StateStore :=
  if strTruthy q.response_type = true ∧ q.response_type ≠ some "code" then
    (.badRequest "unsupported_response_type" "Only 'code' response type is supported",
     states)
  else
    let states1 := mapSet states newState
      { timestamp := now, clientId := q.client_id,
        clientRedirectUri := q.redirect_uri, clientState := q.state }
    (.redirectToGoogle newState, sweepStates now states1)

/-- Query parameters of `GET /oauth/callback`. -/
structure CallbackQuery where
  code : Option String := none
  state : Option String := none
  error : Option String := none
  error_description : Option String := none
deriving DecidableEq, Repr

/-- Outcome of `GET /oauth/callback`. -/
inductive CallbackResult where
  | providerError (error : String) (description : String)
  | invalidStatePage
  | redirectToClient (uri : String) (code : String) (state : Option String)
  | manualTokenPage (access_token : String)
  | exchangeFailedPage (message : String)
deriving DecidableEq, Repr

/-- HTTP status produced for each `CallbackResult` by the source handler. -/
def callbackStatus : CallbackResult → Nat
  | .providerError _ _ => 400
  | .invalidStatePage => 400
  | .redirectToClient _ _ _ => 302
  | .manualTokenPage _ => 200
  | .exchangeFailedPage _ => 500

/-- `handleCallback` (src/src/oauth.ts lines 199-322).  `googleExchange` is
the outcome of the awaited `oauth2Client.getToken(code)`; the `catch` block
(500 failure page) fires on its error — note the state entry is deleted only
after a successful exchange.  `newAuthCode` stands for the fresh random code. -/
def handleCallback (now : Int) (newAuthCode : String)
    (googleExchange : Except String GoogleTokens) (q : CallbackQuery)
    (states : StateStore) (codes : CodeStore) :
    CallbackResult × StateStore × CodeStore :=
  if strTruthy q.error = true then
    (.providerError (q.error.getD "")
       (if strTruthy q.error_description = true then q.error_description.getD ""
        else "No description provided"),
     states, codes)
  else if strTruthy q.state = false then (.invalidStatePage, states, codes)
  else
    let st := q.state.getD ""
    if mapHas states st = false then (.invalidStatePage, states, codes)
    else
      match googleExchange with
      | .error msg => (.exchangeFailedPage msg, states, codes)
      | .ok tokens =>
        let oauthState := (mapGet states st).getD { timestamp := 0 }
        let states1 := mapDelete states st
        if strTruthy oauthState.clientRedirectUri = true then
          let stored : GoogleTokens :=
            { access_token := tokens.access_token,
              refresh_token :=
                if strTruthy tokens.refresh_token = true then tokens.refresh_token
                else none,
              expiry_date :=
                if intTruthy tokens.expiry_date = true then tokens.expiry_date
                else none }
          let codes1 :=
            sweepCodes now (mapSet codes newAuthCode { timestamp := now, tokens := stored })
          let stParam :=
            if strTruthy oauthState.clientState = true then oauthState.clientState
            else none
          (.redirectToClient (oauthState.clientRedirectUri.getD "") newAuthCode stParam,
           states1, codes1)
        else
          (.manualTokenPage tokens.access_token, states1, codes)

/-- Parsed body of `POST /oauth/token`. -/
structure TokenBody where
  grant_type : Option String := none
  code : Option String := none
  refresh_token : Option String := none
deriving DecidableEq, Repr

/-- JSON response of `POST /oauth/token`. -/
structure TokenResponse where
  status : Nat
  error : Option String := none
  error_description : Option String := none
  access_token : Option String := none
  token_type : Option String := none
  expires_in : Option Int := none
  refresh_token : Option String := none
  scope : Option String := none
deriving DecidableEq, Repr

/-- `handleToken` (src/src/oauth.ts lines 331-432).  `refreshResult` is the
outcome of the awaited `refreshAccessToken()` call; its error is caught by
the handler's `catch`, which answers 400 `invalid_grant`. -/
def handleToken (now : Int) (refreshResult : Except String GoogleTokens)
    (body : TokenBody) (codes : CodeStore) : TokenResponse × CodeStore :=
  if strTruthy body.grant_type = false then
    ({ status := 400, error := some "invalid_request",
       error_description := some "grant_type is required" }, codes)
  else if body.grant_type = some "authorization_code" then
    if strTruthy body.code = false then
      ({ status := 400, error := some "invalid_request",
         error_description := some "code is required for authorization_code grant" },
       codes)
    else
      let c := body.code.getD ""
      match mapGet codes c with
      | none =>
        ({ status := 400, error := some "invalid_grant",
           error_description := some "Authorization code is invalid or expired" },
         codes)
      | some authData =>
        let codes1 := mapDelete codes c
        let tokens := authData.tokens
        let expiresIn : Int :=
          if intTruthy tokens.expiry_date = true then
            Int.fdiv ((tokens.expiry_date.getD 0) - now) 1000
          else 3600
        ({ status := 200, access_token := some tokens.access_token,
           token_type := some "Bearer",
           expires_in := some (if expiresIn > 0 then expiresIn else 3600),
           refresh_token := tokens.refresh_token,
           scope := some scopeString }, codes1)
  else if body.grant_type = some "refresh_token" then
    if strTruthy body.refresh_token = false then
      ({ status := 400, error := some "invalid_request",
         error_description := some "refresh_token is required for refresh_token grant" },
       codes)
    else
      match refreshResult with
      | .error msg =>
        ({ status := 400, error := some "invalid_grant",
           error_description := some msg }, codes)
      | .ok credentials =>
        ({ status := 200, access_token := some credentials.access_token,
           token_type := some "Bearer",
           expires_in := some
             (if intTruthy credentials.expiry_date = true then
                Int.fdiv ((credentials.expiry_date.getD 0) - now) 1000
              else 3600),
           scope := some scopeString }, codes)
  else
    ({ status := 400, error := some "unsupported_grant_type",
       error_description := some "Grant type is not supported" }, codes)

/-- Token-info returned by Google's token-info endpoint, as used by the
middleware (`scopes` and `email`). -/
structure TokenInfo where
  scopes : Option (List String) := none
  email : Option String := none
deriving DecidableEq, Repr

/-- JSON error response emitted by the middleware, together with the
auth-related headers it sets. -/
structure MwResponse where
  status : Nat
  error : String
  error_description : String
  wwwAuthenticate : Option String := none
  link : Option String := none
deriving DecidableEq, Repr

/-- Outcome of the middleware: pass the request on (`next`, with the
attached user id when authentication ran) or respond with an error. -/
inductive MwResult where
  | next (userId : Option String)
  | respond (r : MwResponse)
deriving DecidableEq, Repr

/-- The `publicPaths` list of `oauthMiddleware` (compared by exact equality). -/
def publicPaths : List String :=
  ["/health",
   "/oauth/authorize",
   "/oauth/callback",
   "/oauth/token",
   "/oauth/register",
   "/.well-known/oauth-protected-resource",
   "/.well-known/oauth-authorization-server",
   "/.well-known/openid-configuration"]

/-- The discovery URL placed in the 401 challenge headers. -/
def resourceMetadataUrl (serverUrl : String) : String :=
  serverUrl ++ "/.well-known/oauth-protected-resource"

/-- Value of the `WWW-Authenticate` header on 401 responses. -/
def wwwAuthHeaderValue (serverUrl : String) : String :=
  "Bearer resource_metadata=\"" ++ resourceMetadataUrl serverUrl ++ "\""

/-- Value of the `Link` header on 401 responses. -/
def linkHeaderValue (serverUrl : String) : String :=
  "<" ++ resourceMetadataUrl serverUrl ++ ">; rel=\"oauth-protected-resource\""

/-- The 401 response shape shared by all three unauthorized branches of the
middleware: `invalid_token` plus both discovery headers. -/
def unauthorizedResponse (serverUrl desc : String) : MwResponse :=
  { status := 401, error := "invalid_token", error_description := desc,
    wwwAuthenticate := some (wwwAuthHeaderValue serverUrl),
    link := some (linkHeaderValue serverUrl) }

/-- JS `String.prototype.split` with a one-character separator, on the
character list: `"".split(" ")` is `[""]` and adjacent separators produce
empty fields. -/
def splitChars (sep : Char) : List Char → List (List Char)
  | [] => [[]]
  | c :: cs =>
    match splitChars sep cs with
    | [] => if c = sep then [[], []] else [[c]]
    | w :: ws => if c = sep then [] :: w :: ws else (c :: w) :: ws

/-- `authHeader.split(" ")`. -/
def headerParts (h : String) : List String :=
  (splitChars ' ' h.toList).map (fun cs => String.mk cs)

/-- ASCII lower-casing, modelling `toLowerCase()` on the header keyword. -/
def asciiLower (s : String) : String :=
  String.mk (s.toList.map Char.toLower)

/-- `authHeader.split(" ").length === 2 && parts[0].toLowerCase() === "bearer"`. -/
def bearerFormatOk (h : String) : Bool :=
  (headerParts h).length == 2 && asciiLower ((headerParts h).headD "") == "bearer"

/-- `parts[1]`, the token part of a well-formed `Bearer <token>` header. -/
def bearerTokenOf (h : String) : String :=
  (headerParts h).getD 1 ""

/-- `SCOPES.some(scope => tokenInfo.scopes?.includes(scope))`. -/
def hasRequiredScopes (info : TokenInfo) : Bool :=
  SCOPES.any (fun scope =>
    match info.scopes with
    | none => false
    | some granted => granted.contains scope)

/-- `tokenInfo.email || "authenticated-user"`, the user id attached on success. -/
def userIdOf (info : TokenInfo) : String :=
  if strTruthy info.email = true then info.email.getD "" else "authenticated-user"

/-- `oauthMiddleware` (src/src/oauth.ts lines 512-604).  `getTokenInfo` is the
awaited `oauth2Client.getTokenInfo(token)`; its error is caught and answered
with the 401 discovery challenge. -/
def oauthMiddleware (serverUrl path : String) (authHeader : Option String)
    (getTokenInfo : String → Except String TokenInfo) : MwResult :=
  if publicPaths.contains path = true then .next none
  else if strTruthy authHeader = false then
    .respond (unauthorizedResponse serverUrl
      "Bearer token required. Visit /oauth/authorize to authenticate.")
  else if bearerFormatOk (authHeader.getD "") = false then
    .respond (unauthorizedResponse serverUrl
      "Invalid Authorization header format. Use: Bearer <token>")
  else
    match getTokenInfo (bearerTokenOf (authHeader.getD "")) with
    | .error msg =>
      .respond (unauthorizedResponse serverUrl ("Token validation failed: " ++ msg))
    | .ok info =>
      if hasRequiredScopes info = false then
        .respond { status := 403, error := "insufficient_scope",
                   error_description := "Token does not have required Google Drive scopes" }
      else
        .next (some (userIdOf info))

/-- Protocol family of a registered transport object. -/
inductive TransportKind where
  | sse
  | streamableHttp
deriving DecidableEq, Repr

/-- A live transport object in the session registry (identity plus family). -/
structure Transport where
  id : Nat
  kind : TransportKind
deriving DecidableEq, Repr

abbrev TransportRegistry := List (String × Transport)

/-- Outcome of a POST to a session message endpoint. -/
inductive PostResult where
  | missingSessionId
  | sessionNotFound (status : Nat)
  | differentProtocol
  | handlingFailed500
  | delivered (t : Transport)
deriving DecidableEq, Repr

/-- Property names inherited from `Object.prototype`.  Both server variants
declare the registry as a plain object literal, not a `Map`, so a bracket
lookup `transports[sessionId]` falls through to the prototype chain: at these
keys it yields a truthy non-transport value. -/
def objectProtoKeys : List String :=
  ["constructor", "hasOwnProperty", "isPrototypeOf", "propertyIsEnumerable",
   "toLocaleString", "toString", "valueOf", "__proto__",
   "__defineGetter__", "__defineSetter__", "__lookupGetter__", "__lookupSetter__"]

/-- Result of the plain-object lookup `transports[sessionId]`: a registered
transport (own key), a truthy `Object.prototype` member (inherited key, not a
transport), or `undefined`. -/
inductive ObjLookup where
  | found (t : Transport)
  | protoJunk
  | missing
deriving DecidableEq, Repr

/-- `transports[sessionId]` on the plain-object registry: own keys shadow the
prototype; unregistered `Object.prototype` names are truthy junk. -/
def objGet (transports : TransportRegistry) (k : String) : ObjLookup :=
  match mapGet transports k with
  | some t => .found t
  | none => if objectProtoKeys.contains k = true then .protoJunk else .missing

/-- `app.post("/message")` of src/src/http-server.ts (lines 119-148): missing
`sessionId` → 400; a falsy lookup → 404; a truthy lookup reaches
`transport.handlePostMessage` — a real transport handles the message, while an
inherited `Object.prototype` value has no such method, so the call throws and
the catch answers 500 "Message handling failed". -/
def postMessage (transports : TransportRegistry) (sessionId : Option String) : PostResult :=
  if strTruthy sessionId = false then .missingSessionId
  else
    match objGet transports (sessionId.getD "") with
    | .missing => .sessionNotFound 404
    | .protoJunk => .handlingFailed500
    | .found t => .delivered t

/-- `app.post("/messages")` of the Streamable-HTTP server variant (part_004
lines 518-545): missing `sessionId` → 400; a falsy lookup → 400 "No transport
found"; a truthy lookup that is not an `instanceof SSEServerTransport` —
whether a registered Streamable-HTTP transport or inherited `Object.prototype`
junk — → 400 different-transport-protocol; otherwise the SSE transport handles
the message. -/
def postMessages (transports : TransportRegistry) (sessionId : Option String) : PostResult :=
  if strTruthy sessionId = false then .missingSessionId
  else
    match objGet transports (sessionId.getD "") with
    | .missing => .sessionNotFound 400
    | .protoJunk => .differentProtocol
    | .found t =>
      if t.kind = TransportKind.sse then .delivered t else .differentProtocol

/-! ### Lemmas about the Map model -/

theorem mapGet_mapDelete {α : Type} (m : List (String × α)) (k : String) :
    mapGet (mapDelete m k) k = none := by
  induction m with
  | nil => rfl
  | cons kv rest ih =>
    simp only [mapDelete]
    by_cases h : kv.1 = k
    · simpa [h] using ih
    · simpa [mapGet, h] using ih

theorem mapGet_append_left_none {α : Type} (l1 l2 : List (String × α)) (k : String)
    (h : mapGet l1 k = none) : mapGet (l1 ++ l2) k = mapGet l2 k := by
  induction l1 with
  | nil => rfl
  | cons kv rest ih =>
    simp only [mapGet] at h
    by_cases hk : kv.1 = k
    · simp [hk] at h
    · simp only [List.cons_append, mapGet, hk, if_false, if_neg hk] at *
      exact ih h

theorem mapGet_mapSet {α : Type} (m : List (String × α)) (k : String) (v : α) :
    mapGet (mapSet m k v) k = some v := by
  unfold mapSet
  rw [mapGet_append_left_none _ _ _ (mapGet_mapDelete m k)]
  simp [mapGet]

theorem mapGet_filter_of_none {α : Type} (p : String × α → Bool)
    (m : List (String × α)) (k : String) (h : mapGet m k = none) :
    mapGet (m.filter p) k = none := by
  induction m with
  | nil => rfl
  | cons kv rest ih =>
    simp only [mapGet] at h
    by_cases hk : kv.1 = k
    · simp [hk] at h
    · simp only [if_neg hk] at h
      simp only [List.filter_cons]
      by_cases hp : p kv = true
      · simp only [hp, if_true, mapGet, if_neg hk]
        exact ih h
      · simp only [hp, if_false]
        exact ih h

theorem mapHas_mapDelete {α : Type} (m : List (String × α)) (k : String) :
    mapHas (mapDelete m k) k = false := by
  unfold mapHas
  rw [mapGet_mapDelete]
  rfl

theorem mapGet_sweepCodes_mapSet (now : Int) (m : CodeStore) (k : String) (v : CodeRec)
    (h : ¬ v.timestamp < now - tenMinutesMs) :
    mapGet (sweepCodes now (mapSet m k v)) k = some v := by
  unfold sweepCodes mapSet
  rw [List.filter_append]
  rw [mapGet_append_left_none _ _ _
    (mapGet_filter_of_none _ _ _ (mapGet_mapDelete m k))]
  have h2 : now ≤ v.timestamp + tenMinutesMs := by omega
  simp [List.filter_cons, mapGet, h2]

theorem timestamp_ok_of_mem_sweepStates (now : Int) (m : StateStore)
    (kv : String × StateRec) (h : kv ∈ sweepStates now m) :
    ¬ kv.2.timestamp < now - tenMinutesMs := by
  unfold sweepStates at h
  have h2 := (List.mem_filter.mp h).2
  simpa using h2

theorem timestamp_ok_of_mem_sweepCodes (now : Int) (m : CodeStore)
    (kv : String × CodeRec) (h : kv ∈ sweepCodes now m) :
    ¬ kv.2.timestamp < now - tenMinutesMs := by
  unfold sweepCodes at h
  have h2 := (List.mem_filter.mp h).2
  simpa using h2

/-! ### Claim theorems -/

/-- Claim C2: the first `POST /oauth/token` exchange of a stored proxy
authorization code (grant_type `authorization_code`) returns the stored
tokens with status 200 and deletes the code from the Authorization Code
Store, and a second exchange with the same code returns HTTP 400 with
error `invalid_grant`. -/
theorem c2_code_single_use
    (now now2 : Int) (rr rr2 : Except String GoogleTokens)
    (codes : CodeStore) (c : String) (rec : CodeRec)
    (hc : c ≠ "") (hget : mapGet codes c = some rec) :
    (handleToken now rr { grant_type := some "authorization_code", code := some c } codes).1.status = 200 ∧
    (handleToken now rr { grant_type := some "authorization_code", code := some c } codes).1.access_token =
      some rec.tokens.access_token ∧
    (handleToken now rr { grant_type := some "authorization_code", code := some c } codes).1.refresh_token =
      rec.tokens.refresh_token ∧
    mapGet (handleToken now rr { grant_type := some "authorization_code", code := some c } codes).2 c = none ∧
    (handleToken now2 rr2 { grant_type := some "authorization_code", code := some c }
      (handleToken now rr { grant_type := some "authorization_code", code := some c } codes).2).1 =
      { status := 400, error := some "invalid_grant",
        error_description := some "Authorization code is invalid or expired" } := by
  simp [handleToken, strTruthy, hget, hc, mapGet_mapDelete]

/-- Witness for C2 at a concrete one-entry code store. -/
theorem c2_code_single_use_witness :
    ("abc" : String) ≠ "" ∧
    mapGet [("abc", ({ timestamp := 0, tokens := { access_token := "tok" } } : CodeRec))] "abc" =
      some { timestamp := 0, tokens := { access_token := "tok" } } ∧
    (handleToken 5 (.error "e") { grant_type := some "authorization_code", code := some "abc" }
      [("abc", { timestamp := 0, tokens := { access_token := "tok" } })]).1.status = 200 ∧
    (handleToken 6 (.error "e") { grant_type := some "authorization_code", code := some "abc" }
      (handleToken 5 (.error "e") { grant_type := some "authorization_code", code := some "abc" }
        [("abc", { timestamp := 0, tokens := { access_token := "tok" } })]).2).1 =
      { status := 400, error := some "invalid_grant",
        error_description := some "Authorization code is invalid or expired" } := by
  have h := c2_code_single_use 5 6 (.error "e") (.error "e")
    [("abc", { timestamp := 0, tokens := { access_token := "tok" } })] "abc"
    { timestamp := 0, tokens := { access_token := "tok" } }
    (by decide) (by decide)
  exact ⟨by decide, by decide, h.1, h.2.2.2.2⟩

/-- Counterexample to claim C1: with a stored state "s1", a first callback
whose Google token exchange throws leaves the state in the store (the 500
page is rendered but no deletion happens), and a second callback presenting
the very same state value is then accepted — it redirects to the client
instead of failing with the invalid-state page. -/
theorem c1_state_reuse_counterexample :
    (handleCallback 1 "codeA" (.error "boom")
        { code := some "g", state := some "s1" }
        [("s1", { timestamp := 0,
                  clientRedirectUri := some "https://client.example/cb",
                  clientState := some "xyz" })] []).1
      = .exchangeFailedPage "boom" ∧
    (handleCallback 1 "codeA" (.error "boom")
        { code := some "g", state := some "s1" }
        [("s1", { timestamp := 0,
                  clientRedirectUri := some "https://client.example/cb",
                  clientState := some "xyz" })] []).2.1
      = [("s1", { timestamp := 0,
                  clientRedirectUri := some "https://client.example/cb",
                  clientState := some "xyz" })] ∧
    (handleCallback 2 "codeB" (.ok { access_token := "at" })
        { code := some "g2", state := some "s1" }
        ((handleCallback 1 "codeA" (.error "boom")
            { code := some "g", state := some "s1" }
            [("s1", { timestamp := 0,
                      clientRedirectUri := some "https://client.example/cb",
                      clientState := some "xyz" })] []).2.1) []).1
      = .redirectToClient "https://client.example/cb" "codeB" (some "xyz") := by
  decide

/-- Claim C1 (amended): a CSRF state is consumed and deleted on its first
callback only when the Google token exchange succeeds; after such a
successful first callback any second callback presenting the same state
is rejected with the invalid-state failure page.  When the first
callback's token exchange throws, however, the state store is left
unchanged, so the state remains usable. -/
theorem c1_state_single_use_amended
    (now now2 : Int) (nc nc2 : String) (tokens : GoogleTokens)
    (ex2 : Except String GoogleTokens) (q q2 : CallbackQuery)
    (states : StateStore) (codes codes2 : CodeStore) (st : String)
    (hst : q.state = some st) (he : q.error = none) (hne : st ≠ "")
    (hhas : mapHas states st = true)
    (hst2 : q2.state = some st) (he2 : q2.error = none) :
    mapHas (handleCallback now nc (.ok tokens) q states codes).2.1 st = false ∧
    (handleCallback now2 nc2 ex2 q2
       (handleCallback now nc (.ok tokens) q states codes).2.1 codes2).1 =
      .invalidStatePage ∧
    (∀ msg, (handleCallback now nc (.error msg) q states codes).2.1 = states) := by
  have h1 : (handleCallback now nc (.ok tokens) q states codes).2.1 =
      mapDelete states st := by
    simp only [handleCallback, he, hst, strTruthy, hhas]
    simp [hne, hhas]
    split <;> rfl
  refine ⟨?_, ?_, ?_⟩
  · rw [h1]; exact mapHas_mapDelete _ _
  · rw [h1]
    simp [handleCallback, he2, hst2, strTruthy, hne, mapHas_mapDelete]
  · intro msg
    simp [handleCallback, he, hst, strTruthy, hne, hhas]

/-- Witness for the amended C1 at a concrete one-entry state store. -/
theorem c1_state_single_use_amended_witness :
    mapHas [("s1", ({ timestamp := 0, clientRedirectUri := some "u" } : StateRec))] "s1" = true ∧
    (handleCallback 2 "n2" (.error "m") { state := some "s1" }
       (handleCallback 1 "n1" (.ok { access_token := "a" }) { state := some "s1" }
          [("s1", { timestamp := 0, clientRedirectUri := some "u" })] []).2.1 []).1 =
      .invalidStatePage := by
  have h := c1_state_single_use_amended 1 2 "n1" "n2" { access_token := "a" } (.error "m")
    { state := some "s1" } { state := some "s1" }
    [("s1", { timestamp := 0, clientRedirectUri := some "u" })] [] [] "s1"
    rfl rfl (by decide) (by decide) rfl rfl
  exact ⟨by decide, h.2.1⟩

/-- Counterexample to claim C3: records older than the 10-minute TTL are NOT
rejected on first use.  At `now = 600001` a state stored at time 0 (age
> 10 min) is still accepted by the callback, and a code stored at time 0 is
still exchanged with status 200 by the token endpoint — no timestamp is
checked at use time. -/
theorem c3_stale_use_counterexample :
    (0 : Int) < 600001 - tenMinutesMs ∧
    (handleCallback 600001 "nc" (.ok { access_token := "at" })
        { code := some "g", state := some "old" }
        [("old", { timestamp := 0, clientRedirectUri := some "https://c/cb" })] []).1
      = .redirectToClient "https://c/cb" "nc" none ∧
    (handleToken 600001 (.error "e")
        { grant_type := some "authorization_code", code := some "oldc" }
        [("oldc", { timestamp := 0, tokens := { access_token := "at2" } })]).1.status
      = 200 := by
  decide

/-- Claim C3 (amended): staleness is never checked at use time — a state or
code record older than the 10-minute TTL that is still in its store is
accepted on first use (the callback proceeds; the token endpoint answers
200).  Staleness only takes effect through the lazy sweeps: after any
`/oauth/authorize` call the state store holds no entry older than the TTL,
and after a successful client-flow `/oauth/callback` the code store holds
no entry older than the TTL. -/
theorem c3_expiry_sweep_amended
    (now : Int) (ns nc : String) (tokens : GoogleTokens)
    (rr : Except String GoogleTokens)
    (q : CallbackQuery) (qa : AuthorizeQuery) (body : TokenBody)
    (states : StateStore) (codes : CodeStore) (st c : String)
    (ssrec : StateRec) (crec : CodeRec) :
    (q.state = some st → q.error = none → st ≠ "" → mapGet states st = some ssrec →
      ssrec.timestamp < now - tenMinutesMs →
      (handleCallback now nc (.ok tokens) q states codes).1 ≠ .invalidStatePage) ∧
    (body.grant_type = some "authorization_code" → body.code = some c → c ≠ "" →
      mapGet codes c = some crec → crec.timestamp < now - tenMinutesMs →
      (handleToken now rr body codes).1.status = 200) ∧
    (¬ (strTruthy qa.response_type = true ∧ qa.response_type ≠ some "code") →
      ∀ kv ∈ (handleAuthorize now ns qa states).2,
        ¬ kv.2.timestamp < now - tenMinutesMs) ∧
    (q.state = some st → q.error = none → st ≠ "" → mapGet states st = some ssrec →
      strTruthy ssrec.clientRedirectUri = true →
      ∀ kv ∈ (handleCallback now nc (.ok tokens) q states codes).2.2,
        ¬ kv.2.timestamp < now - tenMinutesMs) := by
  refine ⟨?_, ?_, ?_, ?_⟩
  · intro hst he hne hget _
    have hhas : mapHas states st = true := by
      unfold mapHas; rw [hget]; rfl
    simp [handleCallback, he, hst, strTruthy, hne, hhas]
    split <;> simp
  · intro hgt hcode hc hget _
    simp [handleToken, strTruthy, hgt, hcode, hc, hget]
  · intro hcond kv hmem
    unfold handleAuthorize at hmem
    rw [if_neg hcond] at hmem
    exact timestamp_ok_of_mem_sweepStates _ _ _ hmem
  · intro hst he hne hget hcru kv hmem
    have hhas : mapHas states st = true := by
      unfold mapHas; rw [hget]; rfl
    simp only [handleCallback, he, hst, strTruthy, hne, hhas] at hmem
    simp [hne, hhas, hget] at hmem
    unfold strTruthy at hcru
    rw [if_pos hcru] at hmem
    exact timestamp_ok_of_mem_sweepCodes _ _ _ hmem

/-- Witness for the amended C3 at a concrete stale state and code. -/
theorem c3_expiry_sweep_amended_witness :
    mapGet [("old", ({ timestamp := 0, clientRedirectUri := some "u" } : StateRec))] "old" =
      some { timestamp := 0, clientRedirectUri := some "u" } ∧
    (0 : Int) < 600001 - tenMinutesMs ∧
    (handleCallback 600001 "nc" (.ok { access_token := "a" }) { state := some "old" }
       [("old", { timestamp := 0, clientRedirectUri := some "u" })] []).1 ≠
      .invalidStatePage ∧
    (handleToken 600001 (.error "e")
       { grant_type := some "authorization_code", code := some "oldc" }
       [("oldc", { timestamp := 0, tokens := { access_token := "a2" } })]).1.status = 200 := by
  have h := c3_expiry_sweep_amended 600001 "ns" "nc" { access_token := "a" } (.error "e")
    { state := some "old" } {} { grant_type := some "authorization_code", code := some "oldc" }
    [("old", { timestamp := 0, clientRedirectUri := some "u" })]
    [("oldc", { timestamp := 0, tokens := { access_token := "a2" } })]
    "old" "oldc" { timestamp := 0, clientRedirectUri := some "u" }
    { timestamp := 0, tokens := { access_token := "a2" } }
  refine ⟨by decide, by decide, ?_, ?_⟩
  · exact h.1 rfl rfl (by decide) (by decide) (by decide)
  · exact h.2.1 rfl rfl (by decide) (by decide) (by decide)

/-- Claim C4: on a protected path, every 401 emitted by the middleware has
body error `invalid_token` and both a `WWW-Authenticate: Bearer
resource_metadata="<discovery-url>"` header and a `Link` header pointing at
the same discovery URL; and a missing Authorization header, a malformed one
(not `Bearer <token>`), or a failed Google token-info validation each
produce exactly such a 401. -/
theorem c4_bearer_discovery_contract
    (serverUrl path : String) (authHeader : Option String)
    (getTokenInfo : String → Except String TokenInfo)
    (hpub : publicPaths.contains path = false) :
    (∀ r, oauthMiddleware serverUrl path authHeader getTokenInfo = .respond r →
      r.status = 401 →
      r.error = "invalid_token" ∧
      r.wwwAuthenticate = some (wwwAuthHeaderValue serverUrl) ∧
      r.link = some (linkHeaderValue serverUrl)) ∧
    ((strTruthy authHeader = false ∨
      (∃ h, authHeader = some h ∧ bearerFormatOk h = false) ∨
      (∃ h msg, authHeader = some h ∧ bearerFormatOk h = true ∧
        getTokenInfo (bearerTokenOf h) = .error msg)) →
      ∃ r, oauthMiddleware serverUrl path authHeader getTokenInfo = .respond r ∧
        r.status = 401 ∧ r.error = "invalid_token" ∧
        r.wwwAuthenticate = some (wwwAuthHeaderValue serverUrl) ∧
        r.link = some (linkHeaderValue serverUrl)) := by
  have hnotpub : ¬ publicPaths.contains path = true := by
    rw [hpub]; exact Bool.false_ne_true
  constructor
  · intro r hr h401
    unfold oauthMiddleware at hr
    rw [if_neg hnotpub] at hr
    split at hr
    · injection hr with h; subst h; exact ⟨rfl, rfl, rfl⟩
    · split at hr
      · injection hr with h; subst h; exact ⟨rfl, rfl, rfl⟩
      · split at hr
        · injection hr with h; subst h; exact ⟨rfl, rfl, rfl⟩
        · split at hr
          · injection hr with h; subst h; exact absurd h401 (by decide)
          · simp at hr
  · intro hcase
    unfold oauthMiddleware
    rw [if_neg hnotpub]
    rcases hcase with hnone | ⟨h, hh, hbad⟩ | ⟨h, msg, hh, hokfmt, herr⟩
    · rw [if_pos hnone]
      exact ⟨_, rfl, rfl, rfl, rfl, rfl⟩
    · subst hh
      by_cases hst : strTruthy (some h) = false
      · rw [if_pos hst]
        exact ⟨_, rfl, rfl, rfl, rfl, rfl⟩
      · rw [if_neg hst]
        simp only [Option.getD_some]
        rw [if_pos hbad]
        exact ⟨_, rfl, rfl, rfl, rfl, rfl⟩
    · subst hh
      by_cases hst : strTruthy (some h) = false
      · rw [if_pos hst]
        exact ⟨_, rfl, rfl, rfl, rfl, rfl⟩
      · rw [if_neg hst]
        simp only [Option.getD_some]
        rw [if_neg (by simp [hokfmt])]
        rw [herr]
        exact ⟨_, rfl, rfl, rfl, rfl, rfl⟩

/-- Witness for C4: a request to the protected path `/sse` with no
Authorization header gets the full 401 discovery challenge. -/
theorem c4_bearer_discovery_contract_witness :
    publicPaths.contains "/sse" = false ∧
    ∃ r, oauthMiddleware "https://h" "/sse" none (fun _ => Except.error "x") = .respond r ∧
      r.status = 401 ∧ r.error = "invalid_token" ∧
      r.wwwAuthenticate = some (wwwAuthHeaderValue "https://h") ∧
      r.link = some (linkHeaderValue "https://h") := by
  have h := c4_bearer_discovery_contract "https://h" "/sse" none
    (fun _ => Except.error "x") (by decide)
  exact ⟨by decide, h.2 (Or.inl rfl)⟩

/-- Claim C5: on a protected path, with a well-formed Bearer header whose
token passes Google token-info validation, the middleware answers 403
`insufficient_scope` when none of the two required Drive scopes is among
the token's granted scopes, and passes the request on with the
authenticated user attached when at least one required scope is present. -/
theorem c5_scope_enforcement
    (serverUrl path h : String) (getTokenInfo : String → Except String TokenInfo)
    (info : TokenInfo)
    (hpub : publicPaths.contains path = false)
    (hfmt : bearerFormatOk h = true)
    (hok : getTokenInfo (bearerTokenOf h) = .ok info) :
    (hasRequiredScopes info = false →
      oauthMiddleware serverUrl path (some h) getTokenInfo =
        .respond { status := 403, error := "insufficient_scope",
                   error_description := "Token does not have required Google Drive scopes" }) ∧
    (hasRequiredScopes info = true →
      oauthMiddleware serverUrl path (some h) getTokenInfo = .next (some (userIdOf info))) := by
  have hnotpub : ¬ publicPaths.contains path = true := by
    rw [hpub]; exact Bool.false_ne_true
  have hne : strTruthy (some h) = true := by
    by_cases hh : h = ""
    · subst hh; exact absurd hfmt (by decide)
    · simp [strTruthy, hh]
  constructor <;> intro hscope <;>
    · unfold oauthMiddleware
      rw [if_neg hnotpub, if_neg (by simp [hne])]
      simp only [Option.getD_some]
      rw [if_neg (by simp [hfmt]), hok]
      simp [hscope]

/-- Witness for C5: a token carrying only `drive.readonly` passes and gets
the default user id attached. -/
theorem c5_scope_enforcement_witness :
    publicPaths.contains "/sse" = false ∧
    bearerFormatOk "Bearer tok" = true ∧
    oauthMiddleware "https://h" "/sse" (some "Bearer tok")
      (fun _ => .ok { scopes := some ["https://www.googleapis.com/auth/drive.readonly"] }) =
      .next (some "authenticated-user") := by
  have h := c5_scope_enforcement "https://h" "/sse" "Bearer tok"
    (fun _ => .ok { scopes := some ["https://www.googleapis.com/auth/drive.readonly"] })
    { scopes := some ["https://www.googleapis.com/auth/drive.readonly"] }
    (by decide) (by decide) rfl
  exact ⟨by decide, by decide, h.2 (by decide)⟩

/-- Counterexample to claim C6: the bypass is an exact-match list, not a
prefix match — the path `/oauth/revoke` lies under `/oauth/*`, yet the
middleware does not forward it: it answers 401 demanding a Bearer token. -/
theorem c6_oauth_prefix_counterexample :
    oauthMiddleware "https://h" "/oauth/revoke" none (fun _ => Except.error "e") =
      .respond (unauthorizedResponse "https://h"
        "Bearer token required. Visit /oauth/authorize to authenticate.") := by
  decide

/-- Claim C6 (amended): only the eight exact paths in `publicPaths`
(health, the four `/oauth/...` endpoints, the three `/.well-known/...`
documents) bypass bearer validation; for them the middleware forwards the
request with no Authorization header required.  Other paths under
`/oauth/` or `/.well-known/` are NOT bypassed. -/
theorem c6_public_bypass_amended
    (serverUrl path : String) (authHeader : Option String)
    (getTokenInfo : String → Except String TokenInfo)
    (hmem : publicPaths.contains path = true) :
    oauthMiddleware serverUrl path authHeader getTokenInfo = .next none := by
  unfold oauthMiddleware
  rw [if_pos hmem]

/-- Witness for the amended C6 at the public path `/oauth/token`. -/
theorem c6_public_bypass_amended_witness :
    publicPaths.contains "/oauth/token" = true ∧
    oauthMiddleware "https://h" "/oauth/token" none (fun _ => Except.error "e") =
      .next none :=
  ⟨by decide,
   c6_public_bypass_amended "https://h" "/oauth/token" none (fun _ => Except.error "e")
     (by decide)⟩

/-- Counterexample to claim C7: when the pending record's `clientState` is
the empty string, the redirect to the client carries NO `state` parameter
(the handler guards with JS truthiness `if (clientState)`), so the query
does not carry `state` equal to the original clientState verbatim. -/
theorem c7_empty_client_state_counterexample :
    (handleCallback 1 "newcode" (.ok { access_token := "at" })
        { code := some "g", state := some "s" }
        [("s", { timestamp := 0, clientRedirectUri := some "https://c/cb",
                 clientState := some "" })] []).1
      = .redirectToClient "https://c/cb" "newcode" none := by
  decide

/-- Claim C7 (amended): a successful callback whose pending record carries a
(non-empty) `clientRedirectUri` mints the fresh proxy code, stores it with
the real Google tokens, and redirects to that URI with `code` equal to the
newly minted proxy code (not Google's) and `state` equal to the original
`clientState` verbatim whenever that clientState is non-empty; when the
stored clientState is absent or the empty string the redirect carries no
state parameter. -/
theorem c7_proxy_code_redirect_amended
    (now : Int) (nc : String) (tokens : GoogleTokens) (q : CallbackQuery)
    (states : StateStore) (codes : CodeStore) (st uri : String) (rec : StateRec)
    (hst : q.state = some st) (he : q.error = none) (hne : st ≠ "")
    (hget : mapGet states st = some rec)
    (huri : rec.clientRedirectUri = some uri) (hune : uri ≠ "") :
    (handleCallback now nc (.ok tokens) q states codes).1 =
      .redirectToClient uri nc
        (if strTruthy rec.clientState = true then rec.clientState else none) ∧
    mapGet (handleCallback now nc (.ok tokens) q states codes).2.2 nc =
      some { timestamp := now,
             tokens := { access_token := tokens.access_token,
                         refresh_token :=
                           if strTruthy tokens.refresh_token = true then tokens.refresh_token
                           else none,
                         expiry_date :=
                           if intTruthy tokens.expiry_date = true then tokens.expiry_date
                           else none } } ∧
    (∀ s, rec.clientState = some s → s ≠ "" →
      (handleCallback now nc (.ok tokens) q states codes).1 =
        .redirectToClient uri nc (some s)) := by
  have hhas : mapHas states st = true := by
    unfold mapHas; rw [hget]; rfl
  refine ⟨?_, ?_, ?_⟩
  · simp [handleCallback, he, hst, strTruthy, hne, hhas, hget, huri, hune]
  · simp [handleCallback, he, hst, strTruthy, hne, hhas, hget, huri, hune]
    exact mapGet_sweepCodes_mapSet now codes nc _
      (show ¬ now < now - tenMinutesMs by unfold tenMinutesMs; omega)
  · intro s hs hsne
    simp [handleCallback, he, hst, strTruthy, hne, hhas, hget, huri, hune, hs, hsne]

/-- Witness for the amended C7 with a non-empty client state. -/
theorem c7_proxy_code_redirect_amended_witness :
    mapGet [("s", ({ timestamp := 0, clientRedirectUri := some "https://c/cb",
                     clientState := some "xyz" } : StateRec))] "s" =
      some { timestamp := 0, clientRedirectUri := some "https://c/cb",
             clientState := some "xyz" } ∧
    (handleCallback 7 "mintedcode" (.ok { access_token := "at" }) { state := some "s" }
       [("s", { timestamp := 0, clientRedirectUri := some "https://c/cb",
                clientState := some "xyz" })] []).1 =
      .redirectToClient "https://c/cb" "mintedcode" (some "xyz") := by
  have h := c7_proxy_code_redirect_amended 7 "mintedcode" { access_token := "at" }
    { state := some "s" }
    [("s", { timestamp := 0, clientRedirectUri := some "https://c/cb",
             clientState := some "xyz" })] []
    "s" "https://c/cb"
    { timestamp := 0, clientRedirectUri := some "https://c/cb", clientState := some "xyz" }
    rfl rfl (by decide) (by decide) rfl (by decide)
  exact ⟨by decide, h.2.2 "xyz" rfl (by decide)⟩

/-- Counterexample to claim C8: the registries are plain objects, so the
unregistered session id "constructor" (an `Object.prototype` key, truthy
under the lookup) is NOT answered with session-not-found even on an empty
registry: `/message` throws inside `transport.handlePostMessage` and answers
500, and the variant's `/messages` answers the 400
different-transport-protocol error although the id is absent. -/
theorem c8_proto_key_counterexample :
    mapGet ([] : TransportRegistry) "constructor" = none ∧
    postMessage ([] : TransportRegistry) (some "constructor") = .handlingFailed500 ∧
    postMessages ([] : TransportRegistry) (some "constructor") = .differentProtocol := by
  decide

/-- Claim C8 (amended): an unregistered session id that is not an
`Object.prototype` property name is answered session-not-found (404 on
`/message`, 400 on the variant's `/messages`) without delivery; an
unregistered id naming an `Object.prototype` member instead slips past the
truthiness guard — `/message` then fails with 500 and `/messages` answers
400 different-transport-protocol.  A registered id bound to a
Streamable-HTTP transport gets the 400 different-transport-protocol answer
on `/messages`, and a delivered message always goes to exactly the
transport registered under the presented session id. -/
theorem c8_session_routing_amended
    (reg : TransportRegistry) (sid : String) (hsid : sid ≠ "") :
    (mapGet reg sid = none → objectProtoKeys.contains sid = false →
      postMessage reg (some sid) = .sessionNotFound 404 ∧
      postMessages reg (some sid) = .sessionNotFound 400) ∧
    (mapGet reg sid = none → objectProtoKeys.contains sid = true →
      postMessage reg (some sid) = .handlingFailed500 ∧
      postMessages reg (some sid) = .differentProtocol) ∧
    (∀ t, mapGet reg sid = some t → t.kind = TransportKind.streamableHttp →
      postMessages reg (some sid) = .differentProtocol) ∧
    (∀ t, postMessage reg (some sid) = .delivered t → mapGet reg sid = some t) ∧
    (∀ t, postMessages reg (some sid) = .delivered t →
      mapGet reg sid = some t ∧ t.kind = TransportKind.sse) := by
  have hne : strTruthy (some sid) = true := by simp [strTruthy, hsid]
  refine ⟨?_, ?_, ?_, ?_, ?_⟩
  · intro hnone hnp
    have hnmem : sid ∉ objectProtoKeys := by simpa using hnp
    constructor <;> simp [postMessage, postMessages, objGet, hne, hnone, hnmem]
  · intro hnone hp
    have hmem : sid ∈ objectProtoKeys := by simpa using hp
    constructor <;> simp [postMessage, postMessages, objGet, hne, hnone, hmem]
  · intro t hget hkind
    simp [postMessages, objGet, hne, hget, hkind]
  · intro t hdel
    cases hcase : mapGet reg sid with
    | none =>
      by_cases hp : sid ∈ objectProtoKeys
      · simp [postMessage, objGet, hne, hcase, hp] at hdel
      · simp [postMessage, objGet, hne, hcase, hp] at hdel
    | some t2 =>
      simp [postMessage, objGet, hne, hcase] at hdel
      rw [hdel]
  · intro t hdel
    cases hcase : mapGet reg sid with
    | none =>
      by_cases hp : sid ∈ objectProtoKeys
      · simp [postMessages, objGet, hne, hcase, hp] at hdel
      · simp [postMessages, objGet, hne, hcase, hp] at hdel
    | some t2 =>
      by_cases hk : t2.kind = TransportKind.sse
      · simp [postMessages, objGet, hne, hcase, hk] at hdel
        exact ⟨by rw [hdel], by rw [← hdel]; exact hk⟩
      · simp [postMessages, objGet, hne, hcase, hk] at hdel

/-- Witness for the amended C8: an unknown non-prototype id gets 404 on
`/message`, the unknown prototype key "toString" gets the 500 failure, and
an id bound to a Streamable-HTTP transport gets the different-protocol 400
on `/messages`. -/
theorem c8_session_routing_amended_witness :
    ("A" : String) ≠ "" ∧
    postMessage [("B", { id := 1, kind := .sse })] (some "A") = .sessionNotFound 404 ∧
    postMessage [("B", { id := 1, kind := .sse })] (some "toString") = .handlingFailed500 ∧
    postMessages [("A", { id := 2, kind := .streamableHttp })] (some "A") =
      .differentProtocol := by
  have h1 := c8_session_routing_amended [("B", { id := 1, kind := .sse })] "A" (by decide)
  have h2 := c8_session_routing_amended [("A", { id := 2, kind := .streamableHttp })] "A"
    (by decide)
  have h3 := c8_session_routing_amended [("B", { id := 1, kind := .sse })] "toString"
    (by decide)
  exact ⟨by decide, (h1.1 (by decide) (by decide)).1,
    (h3.2.1 (by decide) (by decide)).1,
    h2.2.2.1 { id := 2, kind := .streamableHttp } (by decide) rfl⟩

/-- Counterexample to claim C9: a failed Google refresh call at
`POST /oauth/token` (grant_type `refresh_token`) is answered with HTTP 400
and error `invalid_grant` — neither 500 `server_error` nor 401. -/
theorem c9_refresh_error_counterexample :
    (handleToken 0 (.error "boom")
        { grant_type := some "refresh_token", refresh_token := some "rt" } []).1.status = 400 ∧
    (handleToken 0 (.error "boom")
        { grant_type := some "refresh_token", refresh_token := some "rt" } []).1.error =
      some "invalid_grant" ∧
    ¬ ((handleToken 0 (.error "boom")
          { grant_type := some "refresh_token", refresh_token := some "rt" } []).1.status = 500 ∨
       (handleToken 0 (.error "boom")
          { grant_type := some "refresh_token", refresh_token := some "rt" } []).1.status = 401) := by
  decide

/-- Claim C9 (amended): a failed Google token exchange on `/oauth/callback`
renders the 500 failure page; a failed token-info lookup in the validator
answers 401 `invalid_token` with the discovery headers; but a failed Google
refresh call on `/oauth/token` is caught by the handler's catch-all and
answered 400 `invalid_grant` carrying the error message. -/
theorem c9_upstream_failure_amended
    (now : Int) (nc msg : String) (q : CallbackQuery)
    (states : StateStore) (codes : CodeStore) (st : String)
    (serverUrl path h : String) (getTokenInfo : String → Except String TokenInfo)
    (body : TokenBody) (rt : String) :
    (q.state = some st → q.error = none → st ≠ "" → mapHas states st = true →
      (handleCallback now nc (.error msg) q states codes).1 = .exchangeFailedPage msg ∧
      callbackStatus (handleCallback now nc (.error msg) q states codes).1 = 500) ∧
    (publicPaths.contains path = false → bearerFormatOk h = true →
      getTokenInfo (bearerTokenOf h) = .error msg →
      oauthMiddleware serverUrl path (some h) getTokenInfo =
        .respond (unauthorizedResponse serverUrl ("Token validation failed: " ++ msg))) ∧
    (body.grant_type = some "refresh_token" → body.refresh_token = some rt → rt ≠ "" →
      (handleToken now (.error msg) body codes).1 =
        { status := 400, error := some "invalid_grant",
          error_description := some msg }) := by
  refine ⟨?_, ?_, ?_⟩
  · intro hst he hne hhas
    constructor <;> simp [handleCallback, he, hst, strTruthy, hne, hhas, callbackStatus]
  · intro hpub hfmt herr
    have hnotpub : ¬ publicPaths.contains path = true := by
      rw [hpub]; exact Bool.false_ne_true
    have hne : strTruthy (some h) = true := by
      by_cases hh : h = ""
      · subst hh; exact absurd hfmt (by decide)
      · simp [strTruthy, hh]
    unfold oauthMiddleware
    rw [if_neg hnotpub, if_neg (by simp [hne])]
    simp only [Option.getD_some]
    rw [if_neg (by simp [hfmt]), herr]
  · intro hgt hrt hrtne
    simp [handleToken, strTruthy, hgt, hrt, hrtne]

/-- Witness for the amended C9 at concrete failing Google calls. -/
theorem c9_upstream_failure_amended_witness :
    mapHas [("s", ({ timestamp := 0 } : StateRec))] "s" = true ∧
    (handleCallback 3 "nc" (.error "boom") { state := some "s" }
       [("s", { timestamp := 0 })] []).1 = .exchangeFailedPage "boom" ∧
    oauthMiddleware "https://h" "/sse" (some "Bearer tok") (fun _ => Except.error "boom") =
      .respond (unauthorizedResponse "https://h" ("Token validation failed: " ++ "boom")) ∧
    (handleToken 3 (.error "boom")
       { grant_type := some "refresh_token", refresh_token := some "rt" } []).1 =
      { status := 400, error := some "invalid_grant", error_description := some "boom" } := by
  have hmain := c9_upstream_failure_amended 3 "nc" "boom" { state := some "s" }
    [("s", { timestamp := 0 })] [] "s" "https://h" "/sse" "Bearer tok"
    (fun _ => Except.error "boom")
    { grant_type := some "refresh_token", refresh_token := some "rt" } "rt"
  exact ⟨by decide, (hmain.1 rfl rfl (by decide) (by decide)).1,
    hmain.2.1 (by decide) (by decide) rfl,
    hmain.2.2 rfl rfl (by decide)⟩

/-- Counterexample to claim C10: with stored `expiry_date = 1999` and
`now = 1000` the expiry lies in the future, yet the returned `expires_in`
is 3600 and not `floor((1999 - 1000) / 1000) = 0` — the handler replaces
any non-positive computed value by 3600, even for a future expiry less
than one second away. -/
theorem c10_expires_in_counterexample :
    ((1000 : Int) < 1999) ∧
    Int.fdiv (1999 - 1000) 1000 = 0 ∧
    (handleToken 1000 (.error "e")
        { grant_type := some "authorization_code", code := some "c" }
        [("c", { timestamp := 0,
                 tokens := { access_token := "at",
                             expiry_date := some 1999 } })]).1.expires_in =
      some 3600 := by
  decide

/-- Claim C10 (amended): for a successful authorization_code exchange the
returned `expires_in` is strictly positive; it equals
`floor((expiry_date - now) / 1000)` exactly when that floor is at least 1
(expiry at least a full second in the future), and is 3600 otherwise —
when the stored tokens carry no expiry_date (or a zero one, which JS
truthiness treats as absent), when the expiry is in the past, and even
when the expiry is in the future by less than one second.  In particular
an already-expired access token is reported with `expires_in` 3600. -/
theorem c10_expires_in_amended
    (now : Int) (rr : Except String GoogleTokens) (codes : CodeStore)
    (c : String) (rec : CodeRec)
    (hc : c ≠ "") (hget : mapGet codes c = some rec) :
    (∃ e, (handleToken now rr
        { grant_type := some "authorization_code", code := some c } codes).1.expires_in =
          some e ∧ 0 < e) ∧
    (∀ d, rec.tokens.expiry_date = some d → d ≠ 0 →
      1 ≤ Int.fdiv (d - now) 1000 →
      (handleToken now rr
        { grant_type := some "authorization_code", code := some c } codes).1.expires_in =
          some (Int.fdiv (d - now) 1000)) ∧
    ((rec.tokens.expiry_date = none ∨ rec.tokens.expiry_date = some 0 ∨
      (∃ d, rec.tokens.expiry_date = some d ∧ Int.fdiv (d - now) 1000 ≤ 0)) →
      (handleToken now rr
        { grant_type := some "authorization_code", code := some c } codes).1.expires_in =
          some 3600) := by
  have hres : (handleToken now rr
      { grant_type := some "authorization_code", code := some c } codes).1.expires_in =
      some (if (if intTruthy rec.tokens.expiry_date = true then
                  Int.fdiv ((rec.tokens.expiry_date.getD 0) - now) 1000
                else 3600) > 0 then
              (if intTruthy rec.tokens.expiry_date = true then
                  Int.fdiv ((rec.tokens.expiry_date.getD 0) - now) 1000
                else 3600)
            else 3600) := by
    simp [handleToken, strTruthy, hc, hget]
  refine ⟨?_, ?_, ?_⟩
  · rw [hres]
    refine ⟨_, rfl, ?_⟩
    split
    · split
      · rename_i h2; exact h2
      · decide
    · decide
  · intro d hd hd0 h1
    have hT : intTruthy (some d) = true := by simp [intTruthy, hd0]
    rw [hres, hd]
    simp only [Option.getD_some, hT, if_true]
    rw [if_pos (show (0:Int) < Int.fdiv (d - now) 1000 by omega)]
  · intro hcase
    rcases hcase with hnone | hzero | ⟨d, hd, hle⟩
    · rw [hres, hnone]; simp [intTruthy]
    · rw [hres, hzero]; simp [intTruthy]
    · by_cases hd0 : d = 0
      · subst hd0; rw [hres, hd]; simp [intTruthy]
      · have hT : intTruthy (some d) = true := by simp [intTruthy, hd0]
        rw [hres, hd]
        simp only [Option.getD_some, hT, if_true]
        rw [if_neg (show ¬ Int.fdiv (d - now) 1000 > 0 by omega)]

/-- Witness for the amended C10: an expiry 4 seconds in the future yields
`expires_in = 4`. -/
theorem c10_expires_in_amended_witness :
    ("c" : String) ≠ "" ∧
    mapGet [("c", ({ timestamp := 0,
                     tokens := { access_token := "at",
                                 expiry_date := some 5000 } } : CodeRec))] "c" =
      some { timestamp := 0,
             tokens := { access_token := "at", expiry_date := some 5000 } } ∧
    (handleToken 1000 (.error "e")
        { grant_type := some "authorization_code", code := some "c" }
        [("c", { timestamp := 0,
                 tokens := { access_token := "at",
                             expiry_date := some 5000 } })]).1.expires_in =
      some (Int.fdiv (5000 - 1000) 1000) := by
  have h := c10_expires_in_amended 1000 (.error "e")
    [("c", { timestamp := 0,
             tokens := { access_token := "at", expiry_date := some 5000 } })] "c"
    { timestamp := 0, tokens := { access_token := "at", expiry_date := some 5000 } }
    (by decide) (by decide)
  exact ⟨by decide, by decide, h.2.1 5000 rfl (by decide) (by decide)⟩
